import Mathlib

/-!
Shallow embedding of `loompy/normalize.py`: the attribute-value normalization
engine — write path `normalize_attr_values` with its helpers
`normalize_attr_array` and `normalize_attr_strings`, and read path
`materialize_attr_values` — together with models of the numpy and
Python-stdlib behaviour those functions rely on (dtype dispatch, `np.array`
construction, ascii codecs with the `xmlcharrefreplace` / strict / `ignore`
error handlers, and `html.unescape`).
-/

namespace Loompy

/-- Python scalar values that can appear as attribute-array elements. Floats
and complex numbers are carried by their Python `repr` string and never
interpreted numerically. -/
inductive PyVal where
  | int (n : Int)
  | float (r : String)
  | bool (b : Bool)
  | str (s : String)
  | bytes (bs : List Nat)
  | complexNum (r : String)
deriving DecidableEq, Repr

/-- Numpy dtype kinds relevant to `normalize.py`: `intD` = `np.integer`,
`floatD` = `np.floating`, `boolD` = `np.bool_`, `ubyteD` = `np.ubyte` (itself
an `np.integer` subtype), `strD` = unicode `np.str_`, `bytesD` = `np.bytes_`
(S kind), `objectD` = `np.object_`, and `complexD` = `np.complexfloating`,
a kind matched by none of the dispatch branches in `normalize_attr_values`. -/
inductive NpDtype where
  | intD | floatD | boolD | ubyteD | strD | bytesD | objectD | complexD
deriving DecidableEq, Repr

/-- Model of `np.issubdtype(d, np.integer)`. -/
def NpDtype.isInteger : NpDtype → Bool
  | .intD | .ubyteD => true
  | _ => false

/-- Model of `np.issubdtype(d, np.floating)`. -/
def NpDtype.isFloating : NpDtype → Bool
  | .floatD => true
  | _ => false

/-- Model of `np.issubdtype(d, np.character)`: both unicode and bytes kinds. -/
def NpDtype.isCharacter : NpDtype → Bool
  | .strD | .bytesD => true
  | _ => false

/-- Model of `np.issubdtype(d, np.object_)`. -/
def NpDtype.isObject : NpDtype → Bool
  | .objectD => true
  | _ => false

/-- Model of `np.issubdtype(d, np.string_)` (the S kind). -/
def NpDtype.isBytesKind : NpDtype → Bool
  | .bytesD => true
  | _ => false

/-- Model of `np.issubdtype(d, np.str_)` (the unicode kind). -/
def NpDtype.isStrKind : NpDtype → Bool
  | .strD => true
  | _ => false

/-- Model of `np.issubdtype(d, np.bool_)`. -/
def NpDtype.isBoolKind : NpDtype → Bool
  | .boolD => true
  | _ => false

/-- A dense numpy array: a dtype, a shape (`[n]` for 1-D, `[r, c]` for 2-D),
and the elements in row-major order. -/
structure NpArray where
  dtype : NpDtype
  shape : List Nat
  data : List PyVal
deriving DecidableEq, Repr

/-- An `np.matrix`: always 2-D, stored as its list of rows. -/
structure NpMatrix where
  dtype : NpDtype
  rows : List (List PyVal)
deriving DecidableEq, Repr

/-- First component of the matrix shape (number of rows). -/
def NpMatrix.shape0 (m : NpMatrix) : Nat := m.rows.length

/-- Second component of the matrix shape (number of columns). -/
def NpMatrix.shape1 (m : NpMatrix) : Nat := (m.rows.headD []).length

/-- The possible Python inputs of the write path: a scalar (anything for which
`np.isscalar` is true), a dense ndarray, an `np.matrix`, a list, a tuple, a
sparse matrix (carried by its dense form), or any other object (dict, set,
None, ...), for which only the rejection branch matters. -/
inductive PyObj where
  | scalar (v : PyVal)
  | ndarray (a : NpArray)
  | matrix (m : NpMatrix)
  | pylist (xs : List PyVal)
  | pytuple (xs : List PyVal)
  | sparse (m : NpMatrix)
  | other
deriving DecidableEq, Repr

/-- Python exceptions raised by the code paths modelled here. -/
inductive PyErr where
  | valueError (msg : String)
  | typeError (msg : String)
  | unicodeEncodeError
  | unicodeDecodeError
deriving DecidableEq, Repr

deriving instance DecidableEq for Except

def isIntV : PyVal → Bool
  | .int _ => true
  | _ => false

def isFloatV : PyVal → Bool
  | .float _ => true
  | _ => false

def isBoolV : PyVal → Bool
  | .bool _ => true
  | _ => false

def isStrV : PyVal → Bool
  | .str _ => true
  | _ => false

def isBytesV : PyVal → Bool
  | .bytes _ => true
  | _ => false

def isNumV (v : PyVal) : Bool := isIntV v || isFloatV v

def isStrPromotableV (v : PyVal) : Bool :=
  isIntV v || isFloatV v || isBoolV v || isStrV v

/-- A single quote character, built by code point to keep source text plain. -/
def sq : String := String.singleton (Char.ofNat 39)

/-- Lowercase hexadecimal digit for a value below 16. -/
def hexDigitOf (n : Nat) : Char :=
  if n < 10 then Char.ofNat (48 + n) else Char.ofNat (87 + n)

/-- One byte of a Python bytes repr: printable ascii stays itself, backslash,
quote and the common control characters are escaped, the rest shows as a
two-digit hex escape. -/
def byteReprPiece (b : Nat) : String :=
  if b = 92 then "\\\\"
  else if b = 39 then "\\" ++ sq
  else if b = 9 then "\\t"
  else if b = 10 then "\\n"
  else if b = 13 then "\\r"
  else if 32 ≤ b && b < 127 then String.singleton (Char.ofNat b)
  else "\\x" ++ String.singleton (hexDigitOf (b / 16 % 16)) ++ String.singleton (hexDigitOf (b % 16))

/-- Model of Python `repr` of a bytes object, which is also its `str()`. -/
def pyBytesRepr (bs : List Nat) : String :=
  "b" ++ sq ++ String.join (bs.map byteReprPiece) ++ sq

/-- Model of Python `str()` on scalar values. -/
def strOfPyVal : PyVal → String
  | .int n => toString n
  | .float r => r
  | .bool b => if b then "True" else "False"
  | .str s => s
  | .bytes bs => pyBytesRepr bs
  | .complexNum r => r

/-- Bytes of one character under `encode("ascii", "xmlcharrefreplace")`: a
7-bit character maps to its byte, any other character to the bytes of its
decimal XML numeric character reference. -/
def encodeCharXml (c : Char) : List Nat :=
  if c.toNat < 128 then [c.toNat]
  else ("&#" ++ toString c.toNat ++ ";").data.map Char.toNat

/-- Model of `s.encode("ascii", "xmlcharrefreplace")`. -/
def encodeXmlCharref (s : String) : List Nat :=
  (s.data.map encodeCharXml).flatten

/-- True when every character of the string is in the 7-bit ascii range. -/
def strAllAscii (s : String) : Bool := s.data.all (fun c => c.toNat < 128)

/-- Model of numpy's strict-ascii conversion of a list of strings to an S
array (as in `np.array(strs, dtype="string_")`): fails with
UnicodeEncodeError when any character is outside the 7-bit range. -/
def encodeAllAsciiStrict (ss : List String) : Option (List (List Nat)) :=
  if ss.all strAllAscii then some (ss.map (fun s => s.data.map Char.toNat)) else none

/-- Model of `bs.decode("ascii", "ignore")`: bytes outside the 7-bit range
are dropped. -/
def decodeAsciiIgnore : PyVal → String
  | .bytes bs => ⟨(bs.filter (fun b => b < 128)).map Char.ofNat⟩
  | v => strOfPyVal v

/-- Named entities recognised by this model of `html.unescape` (a small
subset of the html5 table, semicolon forms first so that the longer match
wins, as in CPython). -/
def namedEntities : List (String × String) :=
  [("amp;", "&"), ("lt;", "<"), ("gt;", ">"), ("quot;", "\""), ("nbsp;", " "),
   ("amp", "&"), ("lt", "<"), ("gt", ">"), ("quot", "\"")]

/-- Look up a named entity at the current position: the first table key that
is a prefix of the remaining text, with the number of characters consumed. -/
def findNamedEntity (l : List Char) : Option (String × Nat) :=
  (namedEntities.find? (fun p => p.1.data.isPrefixOf l)).map
    (fun p => (p.2, p.1.length))

/-- Model of `html.unescape` on one numeric character reference: valid
Unicode scalar values map to their character, surrogates and out-of-range
codes to U+FFFD. The CPython windows-1252 remapping of 0x80–0x9f and the
special cases for 0x00 and 0x0d are not modelled; no theorem below
exercises them. -/
def charFromRef (n : Nat) : String :=
  if n < 55296 ∨ (57344 ≤ n ∧ n < 1114112) then String.singleton (Char.ofNat n)
  else "�"

def isHexDigitChar (c : Char) : Bool :=
  c.isDigit || (97 ≤ c.toNat && c.toNat ≤ 102) || (65 ≤ c.toNat && c.toNat ≤ 70)

def hexDigitVal (c : Char) : Nat :=
  if c.isDigit then c.toNat - 48
  else if 97 ≤ c.toNat then c.toNat - 87
  else c.toNat - 55

def decDigitsVal (ds : List Char) : Nat :=
  ds.foldl (fun a c => a * 10 + (c.toNat - 48)) 0

def hexDigitsVal (ds : List Char) : Nat :=
  ds.foldl (fun a c => a * 16 + hexDigitVal c) 0

/-- Model of one match of the character-reference pattern of Python
`html.unescape`, applied just after an ampersand: the replacement text and
the number of characters consumed after the ampersand, or `none` when
nothing matches there (in which case the ampersand stays as literal text).
Named entities are limited to the table in `namedEntities`. -/
def parseCharref (l : List Char) : Option (String × Nat) :=
  match l with
  | '#' :: t =>
    if (t.headD ' ') = 'x' ∨ (t.headD ' ') = 'X' then
      let ds := (t.drop 1).takeWhile isHexDigitChar
      if ds.isEmpty then none
      else
        let after := (t.drop 1).drop ds.length
        some (charFromRef (hexDigitsVal ds),
              2 + ds.length + (if (after.headD ' ') = ';' then 1 else 0))
    else
      let ds := t.takeWhile Char.isDigit
      if ds.isEmpty then none
      else
        let after := t.drop ds.length
        some (charFromRef (decDigitsVal ds),
              1 + ds.length + (if (after.headD ' ') = ';' then 1 else 0))
  | _ => findNamedEntity l

/-- Scan of `html.unescape`, with explicit fuel to keep the recursion
structural: text that is not part of a recognised character reference is
copied unchanged; at an ampersand a reference match is replaced by its text.
Every step consumes at least one character, so fuel equal to the length of
the text (as supplied by `unescapeChars`) never runs out and the
fuel-exhausted arm is unreachable. -/
def unescapeCharsFuel : Nat → List Char → List Char
  | 0, l => l
  | _, [] => []
  | fuel + 1, c :: rest =>
    if c = '&' then
      match parseCharref rest with
      | some (repl, k) => repl.data ++ unescapeCharsFuel fuel (rest.drop k)
      | none => c :: unescapeCharsFuel fuel rest
    else c :: unescapeCharsFuel fuel rest

/-- The scan of `html.unescape` over a character list. -/
def unescapeChars (l : List Char) : List Char := unescapeCharsFuel l.length l

/-- Model of Python `html.unescape`, restricted to decimal and hexadecimal
numeric character references and the named entities of `namedEntities`; text
containing no ampersand is returned unchanged, as in CPython. -/
def html_unescape (s : String) : String := ⟨unescapeChars s.data⟩

/-- Python `str(int)` writes the value back in decimal. -/
def pyFloatStr : PyVal → PyVal
  | .int n => .float (toString n ++ ".0")
  | v => v

/-- Model of `np.array` applied to a Python list, restricted to the element
combinations exercised in this development: an empty list gives a float64
array; all-int, all-bool, all-str and all-bytes lists keep their kind;
int/float mixtures promote to float; a mixture of numbers, bools and strings
that contains at least one string promotes to unicode strings via `str()`;
every other mixture is modelled as an object array. -/
def npArrayOfList (xs : List PyVal) : NpArray :=
  if xs.isEmpty then ⟨.floatD, [0], []⟩
  else if xs.all isIntV then ⟨.intD, [xs.length], xs⟩
  else if xs.all isBoolV then ⟨.boolD, [xs.length], xs⟩
  else if xs.all isNumV then ⟨.floatD, [xs.length], xs.map pyFloatStr⟩
  else if xs.all isStrV then ⟨.strD, [xs.length], xs⟩
  else if xs.all isBytesV then ⟨.bytesD, [xs.length], xs⟩
  else if xs.any isStrV && xs.all isStrPromotableV then
    ⟨.strD, [xs.length], xs.map (fun v => .str (strOfPyVal v))⟩
  else ⟨.objectD, [xs.length], xs⟩

/-- Numpy dtype of the 1-element array `np.array([v])` wrapping a scalar. -/
def dtypeOfScalar : PyVal → NpDtype
  | .int _ => .intD
  | .float _ => .floatD
  | .bool _ => .boolD
  | .str _ => .strD
  | .bytes _ => .bytesD
  | .complexNum _ => .complexD

/-- The 1-element array `np.array([v])` a scalar input is wrapped into. -/
def npOfScalar (v : PyVal) : NpArray := ⟨dtypeOfScalar v, [1], [v]⟩

/-- Singleton-axis handling for `np.matrix` (shared by the sparse branch,
whose `todense()` result is an `np.matrix`): a single row or a single column
is extracted in order, anything else raises ValueError. -/
def matrixToArray (m : NpMatrix) : Except PyErr NpArray :=
  if m.shape0 = 1 then .ok ⟨m.dtype, [m.shape1], m.rows.headD []⟩
  else if m.shape1 = 1 then
    .ok ⟨m.dtype, [m.shape0], m.rows.map (fun r => r.headD (.int 0))⟩
  else .error (.valueError "Attribute values must be 1-dimensional.")

/-- Model of `normalize_attr_array`: an ndarray is returned unchanged
whatever its shape; an `np.matrix` must have a singleton axis; lists and
tuples go through `np.array`; a sparse matrix is densified to a matrix and
handled recursively; every other input — scalars included — is rejected with
ValueError. -/
def normalize_attr_array : PyObj → Except PyErr NpArray
  | .ndarray a => .ok a
  | .matrix m => matrixToArray m
  | .pylist xs => .ok (npArrayOfList xs)
  | .pytuple xs => .ok (npArrayOfList xs)
  | .sparse m => matrixToArray m
  | _ => .error (.valueError
      "Argument must be a list, tuple, numpy matrix, numpy ndarray or sparse matrix.")

/-- Result of `np.array` on a list of Python bytes objects: an S-kind array
when nonempty and, as for any empty list, a float64 array when empty. -/
def npArrayOfBytesList (bss : List (List Nat)) : NpArray :=
  if bss.isEmpty then ⟨.floatD, [0], []⟩
  else ⟨.bytesD, [bss.length], bss.map PyVal.bytes⟩

/-- The text carried by a string-kind element. -/
def strValOf : PyVal → String
  | .str s => s
  | v => strOfPyVal v

/-- Model of `normalize_attr_strings` with its dispatch on `a.dtype` and, in
the object branch, on element types: all-unicode object arrays are
ascii-encoded with `xmlcharrefreplace`; all-bytes object arrays are recast to
the S kind; mixed object arrays are stringified with `str()` and cast to the
S kind with the strict ascii codec (which can raise UnicodeEncodeError), with
a `logging.debug` diagnostic recorded in the Bool of the result; S-kind
arrays are returned unchanged; unicode-kind arrays are ascii-encoded with
`xmlcharrefreplace`; anything else raises ValueError. -/
def normalize_attr_strings (a : NpArray) : Except PyErr (NpArray × Bool) :=
  if a.dtype.isObject then
    if a.data.all isStrV then
      .ok (npArrayOfBytesList (a.data.map (fun v => encodeXmlCharref (strValOf v))), false)
    else if a.data.all isBytesV then
      .ok (⟨.bytesD, a.shape, a.data⟩, false)
    else
      match encodeAllAsciiStrict (a.data.map strOfPyVal) with
      | some bss => .ok (⟨.bytesD, [bss.length], bss.map PyVal.bytes⟩, true)
      | none => .error .unicodeEncodeError
  else if a.dtype.isBytesKind then .ok (a, false)
  else if a.dtype.isStrKind then
    .ok (npArrayOfBytesList (a.data.map (fun v => encodeXmlCharref (strValOf v))), false)
  else .error (.valueError "String values must be object, ascii or unicode.")

/-- Items yielded by Python iteration over a write-path input: plain
elements, or — for 2-D containers — whole rows. -/
inductive PyIterElem where
  | val (v : PyVal)
  | ndRow (dtype : NpDtype) (row : List PyVal)
  | matRow (dtype : NpDtype) (row : List PyVal)
  | spRow (dtype : NpDtype) (row : List PyVal)
deriving DecidableEq, Repr

/-- Element as printed inside a numpy array repr: strings are quoted, the
other kinds print as their `str()`. -/
def npReprElem : PyVal → String
  | .str s => sq ++ s ++ sq
  | .int n => toString n
  | .float r => r
  | .bool b => if b then "True" else "False"
  | .bytes bs => pyBytesRepr bs
  | .complexNum r => r

/-- Model of Python `str()` on the items yielded by iteration: a plain
element stringifies with `str()`; a row of a 2-D ndarray prints as a
bracketed element list; a row of an `np.matrix` prints with doubled
brackets; the repr of a sparse row is modelled only up to being some string,
its exact form never being needed below. -/
def pyStrIter : PyIterElem → String
  | .val v => strOfPyVal v
  | .ndRow _ row => "[" ++ String.intercalate " " (row.map npReprElem) ++ "]"
  | .matRow _ row => "[[" ++ String.intercalate " " (row.map npReprElem) ++ "]]"
  | .spRow _ row => "<sparse row with " ++ toString row.length ++ " stored elements>"

/-- Row-major rows of length `c` of a flat element list. -/
def chunkRows (c : Nat) (xs : List PyVal) : List (List PyVal) :=
  if h : c = 0 ∨ xs.isEmpty then []
  else xs.take c :: chunkRows c (xs.drop c)
termination_by xs.length
decreasing_by
  have hc : c ≠ 0 := fun hc0 => h (Or.inl hc0)
  have hx : ¬ xs.isEmpty = true := fun hx0 => h (Or.inr hx0)
  have hlen : 0 < xs.length := by
    cases xs with
    | nil => simp at hx
    | cons y ys => simp
  simp only [List.length_drop]
  omega

/-- Model of Python iteration (`for elm in a`) over each input kind:
iterating an `np.matrix` or a sparse matrix yields its rows (each itself
2-D), iterating a 2-D ndarray yields its 1-D rows, everything else yields
its elements; the scalar case stands for the 1-element array the scalar was
wrapped into before iteration. -/
def pyIter : PyObj → List PyIterElem
  | .scalar v => [.val v]
  | .pylist xs => xs.map .val
  | .pytuple xs => xs.map .val
  | .matrix m => m.rows.map (fun r => .matRow m.dtype r)
  | .sparse m => m.rows.map (fun r => .spRow m.dtype r)
  | .ndarray a =>
    match a.shape with
    | [_, c] => (chunkRows c a.data).map (fun r => .ndRow a.dtype r)
    | _ => a.data.map .val
  | .other => []

/-- A value as returned by the write path and consumed by the read path:
either a numpy scalar (the `arr[0]` unwrapping) or an array. -/
inductive NpValue where
  | scalarV (v : PyVal)
  | arrV (a : NpArray)
deriving DecidableEq, Repr

/-- Model of `normalize_attr_values`: scalar wrapping, shape coercion
through `normalize_attr_array`, dtype dispatch — integer and floating pass
through; character and object kinds go to `normalize_attr_strings` or, under
`use_object_strings`, to a stringified object array built by iterating the
pre-coercion input `a`; bool casts to ubyte; any other dtype falls through
unchanged — then scalar unwrapping. The Bool of the result records whether
the mixed-type diagnostic of `normalize_attr_strings` was emitted. -/
def normalize_attr_values (a0 : PyObj) (use_object_strings : Bool) :
    Except PyErr (NpValue × Bool) :=
  let scalar : Bool := match a0 with | .scalar _ => true | _ => false
  let a : PyObj := match a0 with | .scalar v => .ndarray (npOfScalar v) | x => x
  match normalize_attr_array a with
  | .error e => .error e
  | .ok arr0 =>
    let step : Except PyErr (NpArray × Bool) :=
      if arr0.dtype.isInteger || arr0.dtype.isFloating then .ok (arr0, false)
      else if arr0.dtype.isCharacter || arr0.dtype.isObject then
        if use_object_strings then
          .ok (⟨.objectD, [(pyIter a).length],
                (pyIter a).map (fun e => .str (pyStrIter e))⟩, false)
        else normalize_attr_strings arr0
      else if arr0.dtype.isBoolKind then
        .ok (⟨.ubyteD, arr0.shape, arr0.data.map (fun v =>
              match v with | .bool b => .int (if b then 1 else 0) | x => x)⟩, false)
      else .ok (arr0, false)
    match step with
    | .error e => .error e
    | .ok (arr, diag) =>
      if scalar then .ok (.scalarV (arr.data.headD (.int 0)), diag)
      else .ok (.arrV arr, diag)

/-- What the read path hands back to the caller: a scalar, an ndarray, the
plain Python list produced by the legacy-bytes fallback, or the `None` that
the fallback leaves in place when its type test fails. -/
inductive MatResult where
  | scalarM (v : PyVal)
  | arrM (a : NpArray)
  | listM (xs : List PyVal)
  | noneM
deriving DecidableEq, Repr

/-- Decode of one element inside `temp.astype(str)` on an S-kind array. -/
def bytesDecOrStr : PyVal → String
  | .bytes bs => ⟨bs.map Char.ofNat⟩
  | v => strOfPyVal v

/-- Model of `temp.astype(str)` inside `materialize_attr_values`: an S-kind
array decodes each element with the strict ascii codec and raises a
UnicodeDecodeError — returning `none` here — if any byte is outside the
7-bit range; an object array applies `str()` to each element, which cannot
fail on this value domain. -/
def astypeStr (a : NpArray) : Option (List String) :=
  if a.dtype.isObject then some (a.data.map strOfPyVal)
  else if a.data.all (fun v => match v with
          | .bytes bs => bs.all (fun b => b < 128)
          | _ => true) then
    some (a.data.map bytesDecOrStr)
  else none

/-- Model of `x.replace(b"\xc2\xa0", b"")`: remove every occurrence of the
UTF-8 non-breaking-space byte pair, left to right. -/
def stripNbsp : List Nat → List Nat
  | 194 :: 160 :: rest => stripNbsp rest
  | b :: rest => b :: stripNbsp rest
  | [] => []

/-- Numpy ndarrays have no `decode` method, so the `hasattr(a, "decode")`
test in the source is always false; the definition records that fact and
keeps the corresponding branch of the model as the dead code it is. -/
def ndarrayHasDecode (_ : NpArray) : Bool := false

/-- Model of `materialize_attr_values`: scalar wrapping; S-kind and object
arrays are converted to str (strict ascii for S data) and every element is
unescaped with `html.unescape` into an object array — if the conversion
raises, the fallback returns the one-element Python list holding the first
raw element with the non-breaking-space byte pair stripped (or leaves the
`None` result in place when the first element is not an `np.bytes_`, so that
the scalar unwrapping then raises TypeError); unicode-kind arrays convert to
an object array with the same text, unescaped by nothing; every other dtype
passes through; finally the scalar case unwraps element 0. -/
def materialize_attr_values (a0 : NpValue) : Except PyErr MatResult :=
  let scalar : Bool := match a0 with | .scalarV _ => true | _ => false
  let a : NpArray := match a0 with | .scalarV v => npOfScalar v | .arrV x => x
  let result : MatResult :=
    if a.dtype.isBytesKind || a.dtype.isObject then
      let temp : NpArray :=
        if ndarrayHasDecode a then
          ⟨.strD, a.shape, a.data.map (fun v => .str (decodeAsciiIgnore v))⟩
        else a
      match astypeStr temp with
      | some strs =>
        .arrM ⟨.objectD, [strs.length], strs.map (fun s => .str (html_unescape s))⟩
      | none =>
        match a.data.headD (.int 0) with
        | .bytes bs => .listM [.bytes (stripNbsp bs)]
        | _ => .noneM
    else if a.dtype.isStrKind then
      .arrM ⟨.objectD, a.shape, a.data⟩
    else
      .arrM a
  if scalar then
    match result with
    | .arrM arr => .ok (.scalarM (arr.data.headD (.int 0)))
    | .listM xs => .ok (.scalarM (xs.headD (.int 0)))
    | .noneM => .error (.typeError "NoneType object is not subscriptable")
    | .scalarM v => .ok (.scalarM v)
  else
    .ok result

/-- Write a list of native strings through `normalize_attr_values` and read
the stored value back through `materialize_attr_values`. -/
def writeReadList (ss : List String) : Except PyErr MatResult :=
  (normalize_attr_values (.pylist (ss.map .str)) false).bind
    (fun p => materialize_attr_values p.1)

/-- The element values a read-path result presents to the caller. -/
def MatResult.values : MatResult → List PyVal
  | .scalarM v => [v]
  | .arrM a => a.data
  | .listM xs => xs
  | .noneM => []

/-! ### Helper lemmas -/

@[simp] theorem strValOf_str (s : String) : strValOf (.str s) = s := rfl

@[simp] theorem isStrV_str (s : String) : isStrV (.str s) = true := rfl

@[simp] theorem isBytesV_bytes (bs : List Nat) : isBytesV (.bytes bs) = true := rfl

@[simp] theorem strOfPyVal_str (s : String) : strOfPyVal (.str s) = s := rfl

@[simp] theorem isIntV_str (s : String) : isIntV (.str s) = false := rfl

@[simp] theorem isFloatV_str (s : String) : isFloatV (.str s) = false := rfl

@[simp] theorem isBoolV_str (s : String) : isBoolV (.str s) = false := rfl

@[simp] theorem isBytesV_str (s : String) : isBytesV (.str s) = false := rfl

theorem encodeCharXml_ascii (c : Char) (h : c.toNat < 128) :
    encodeCharXml c = [c.toNat] := by
  simp [encodeCharXml, h]

theorem flatten_singletons {α β : Type} (f : α → β) (l : List α) :
    (l.map (fun a => [f a])).flatten = l.map f := by
  induction l with
  | nil => rfl
  | cons a t ih => simp [ih]

theorem encodeXmlCharref_ascii (s : String) (h : ∀ c ∈ s.data, c.toNat < 128) :
    encodeXmlCharref s = s.data.map Char.toNat := by
  unfold encodeXmlCharref
  rw [List.map_congr_left (fun c hc => encodeCharXml_ascii c (h c hc))]
  exact flatten_singletons Char.toNat s.data

theorem encodeXmlCharref_ascii_all_lt (s : String) (h : ∀ c ∈ s.data, c.toNat < 128) :
    (encodeXmlCharref s).all (fun b => b < 128) = true := by
  rw [encodeXmlCharref_ascii s h]
  apply List.all_eq_true.mpr
  intro b hb
  obtain ⟨c, hc, rfl⟩ := List.mem_map.mp hb
  simpa using h c hc

theorem decode_encodeXmlCharref (s : String) (h : ∀ c ∈ s.data, c.toNat < 128) :
    bytesDecOrStr (.bytes (encodeXmlCharref s)) = s := by
  rw [show bytesDecOrStr (.bytes (encodeXmlCharref s)) =
        ⟨(encodeXmlCharref s).map Char.ofNat⟩ from rfl]
  rw [encodeXmlCharref_ascii s h, List.map_map]
  have hid : Char.ofNat ∘ Char.toNat = id := funext Char.ofNat_toNat
  rw [hid, List.map_id]

theorem unescapeCharsFuel_no_amp (fuel : Nat) (l : List Char)
    (h : ∀ c ∈ l, c ≠ '&') : unescapeCharsFuel fuel l = l := by
  induction fuel generalizing l with
  | zero => cases l <;> rfl
  | succ n ih =>
    cases l with
    | nil => rfl
    | cons c rest =>
      rw [unescapeCharsFuel]
      rw [if_neg (by simpa using h c (List.mem_cons_self c rest))]
      rw [ih rest (fun x hx => h x (List.mem_cons_of_mem c hx))]

theorem unescapeChars_no_amp (l : List Char) (h : ∀ c ∈ l, c ≠ '&') :
    unescapeChars l = l :=
  unescapeCharsFuel_no_amp l.length l h

theorem html_unescape_no_amp (s : String) (h : ∀ c ∈ s.data, c ≠ '&') :
    html_unescape s = s := by
  unfold html_unescape
  rw [unescapeChars_no_amp s.data h]

/-- On a list of all-str elements, `npArrayOfList` yields a unicode array
with the data unchanged, provided the list is nonempty. -/
theorem npArrayOfList_all_str (s : String) (ss : List String) :
    npArrayOfList ((s :: ss).map PyVal.str) =
      ⟨.strD, [(s :: ss).length], (s :: ss).map PyVal.str⟩ := by
  have hstr : (ss.map PyVal.str).all isStrV = true :=
    List.all_eq_true.mpr (fun v hv => by
      obtain ⟨x, _, rfl⟩ := List.mem_map.mp hv
      rfl)
  simp [npArrayOfList, hstr, isNumV]

/-! ### Claim theorems -/

/-- C2: normalizing the single-element text list containing "café" yields a
fixed-width byte-string array whose element holds the bytes of the decimal
XML numeric character reference for the e-acute character (the bytes of
"&#233;" appear as an infix), and materializing that byte-string array
yields the text "café" again. -/
theorem C2_cafe_escape_roundtrip :
    normalize_attr_values (.pylist [.str "café"]) false =
      .ok (.arrV ⟨.bytesD, [1], [.bytes [99, 97, 102, 38, 35, 50, 51, 51, 59]]⟩, false)
    ∧ [38, 35, 50, 51, 51, 59] <:+: [99, 97, 102, 38, 35, 50, 51, 51, 59]
    ∧ materialize_attr_values
        (.arrV ⟨.bytesD, [1], [.bytes [99, 97, 102, 38, 35, 50, 51, 51, 59]]⟩) =
      .ok (.arrM ⟨.objectD, [1], [.str "café"]⟩) :=
  ⟨by decide, by decide, by decide⟩

/-- C3 counterexample: a dense 2-D `np.ndarray` of shape (2,3) — no singleton
axis — does NOT make normalization fail: `normalize_attr_array` returns any
ndarray unchanged and the numeric dispatch passes it through, so the claimed
ShapeError (which does not exist in the code; the matrix branch raises
ValueError) never happens for dense ndarrays. -/
theorem C3_counterexample :
    normalize_attr_values (.ndarray ⟨.intD, [2, 3],
        [.int 1, .int 2, .int 3, .int 4, .int 5, .int 6]⟩) false =
      .ok (.arrV ⟨.intD, [2, 3],
        [.int 1, .int 2, .int 3, .int 4, .int 5, .int 6]⟩, false) := rfl

/-- C3 amended: the singleton-axis requirement applies only to `np.matrix`
inputs (and sparse inputs, which densify to a matrix): a matrix with no
singleton axis raises ValueError ("Attribute values must be 1-dimensional."),
a single-row or single-column matrix has its other axis extracted in order,
and a dense ndarray of any shape — 2-D included — is passed through without
any shape check. -/
theorem C3_matrix_shape_check :
    (∀ m : NpMatrix, m.shape0 ≠ 1 → m.shape1 ≠ 1 →
      normalize_attr_array (.matrix m) =
        .error (.valueError "Attribute values must be 1-dimensional.")
      ∧ normalize_attr_array (.sparse m) =
        .error (.valueError "Attribute values must be 1-dimensional."))
    ∧ (∀ (dt : NpDtype) (row : List PyVal),
        normalize_attr_array (.matrix ⟨dt, [row]⟩) = .ok ⟨dt, [row.length], row⟩)
    ∧ (∀ (dt : NpDtype) (v : PyVal) (vs : List PyVal), (v :: vs).length ≠ 1 →
        normalize_attr_array (.matrix ⟨dt, (v :: vs).map (fun x => [x])⟩) =
          .ok ⟨dt, [(v :: vs).length], v :: vs⟩)
    ∧ (∀ a : NpArray, normalize_attr_array (.ndarray a) = .ok a) := by
  refine ⟨?_, ?_, ?_, fun a => rfl⟩
  · intro m h0 h1
    constructor <;>
      simp [normalize_attr_array, matrixToArray, h0, h1]
  · intro dt row
    simp [normalize_attr_array, matrixToArray, NpMatrix.shape0, NpMatrix.shape1]
  · intro dt v vs hlen
    have h0 : (NpMatrix.mk dt ((v :: vs).map (fun x => [x]))).shape0 ≠ 1 := by
      simpa [NpMatrix.shape0] using hlen
    have h1 : (NpMatrix.mk dt ((v :: vs).map (fun x => [x]))).shape1 = 1 := by
      simp [NpMatrix.shape1]
    have hmap : ∀ l : List PyVal,
        (l.map (fun x => [x])).map (fun r => r.headD (PyVal.int 0)) = l := by
      intro l
      induction l with
      | nil => rfl
      | cons x t ih => simpa using ih
    show matrixToArray ⟨dt, (v :: vs).map (fun x => [x])⟩ = _
    unfold matrixToArray
    rw [if_neg h0, if_pos h1]
    rw [hmap]
    simp [NpMatrix.shape0]

/-- C3 witness: the (2,3) matrix with no singleton axis is rejected with
ValueError, and a single-row matrix is extracted in order. -/
theorem C3_matrix_shape_check_witness :
    normalize_attr_array (.matrix ⟨.intD,
        [[.int 1, .int 2, .int 3], [.int 4, .int 5, .int 6]]⟩) =
      .error (.valueError "Attribute values must be 1-dimensional.")
    ∧ normalize_attr_array (.matrix ⟨.intD, [[.int 1, .int 2, .int 3]]⟩) =
      .ok ⟨.intD, [3], [.int 1, .int 2, .int 3]⟩ :=
  ⟨(C3_matrix_shape_check.1 ⟨.intD, [[.int 1, .int 2, .int 3], [.int 4, .int 5, .int 6]]⟩
      (by decide) (by decide)).1,
   C3_matrix_shape_check.2.1 .intD [.int 1, .int 2, .int 3]⟩

/-- C4 counterexample: an input outside the accepted container set is
rejected, but with ValueError ("Argument must be a list, tuple, numpy
matrix, numpy ndarray or sparse matrix."), not with the TypeError the claim
states. -/
theorem C4_counterexample :
    normalize_attr_values .other false =
      .error (.valueError
        "Argument must be a list, tuple, numpy matrix, numpy ndarray or sparse matrix.") := rfl

/-- C4 amended: a write-path input whose container kind is not in the
accepted set (and which is not a scalar) makes normalization fail with
ValueError, never with TypeError. -/
theorem C4_unsupported_container_valueerror :
    ∀ u : Bool,
      normalize_attr_values .other u =
        .error (.valueError
          "Argument must be a list, tuple, numpy matrix, numpy ndarray or sparse matrix.")
      ∧ ∀ msg : String, normalize_attr_values .other u ≠ .error (.typeError msg) := by
  intro u
  constructor
  · cases u <;> rfl
  · intro msg h
    have h2 : (PyErr.valueError
        "Argument must be a list, tuple, numpy matrix, numpy ndarray or sparse matrix.") =
        .typeError msg := by
      have h1 : normalize_attr_values .other u = .error (.valueError
          "Argument must be a list, tuple, numpy matrix, numpy ndarray or sparse matrix.") := by
        cases u <;> rfl
      exact Except.error.inj (h1.symm.trans h)
    exact PyErr.noConfusion h2

/-- C4 witness: at the unsupported input the error is the ValueError above
and differs from a TypeError carrying the message the spec suggests. -/
theorem C4_unsupported_container_valueerror_witness :
    normalize_attr_values .other false =
      .error (.valueError
        "Argument must be a list, tuple, numpy matrix, numpy ndarray or sparse matrix.")
    ∧ normalize_attr_values .other false ≠
      .error (.typeError "unsupported array-like input") :=
  ⟨(C4_unsupported_container_valueerror false).1,
   (C4_unsupported_container_valueerror false).2 "unsupported array-like input"⟩

/-- C8 counterexample: a complex-valued ndarray matches none of the dtype
dispatch branches of `normalize_attr_values` and is returned unchanged — no
ValueError is raised and the result keeps its non-canonical complex dtype. -/
theorem C8_counterexample :
    normalize_attr_values (.ndarray ⟨.complexD, [2],
        [.complexNum "(1+2j)", .complexNum "(3+4j)"]⟩) false =
      .ok (.arrV ⟨.complexD, [2],
        [.complexNum "(1+2j)", .complexNum "(3+4j)"]⟩, false) := rfl

/-- C8 amended: `normalize_attr_values` performs no element-kind validation
beyond its dispatch: an array whose dtype is in none of {integer, floating,
character, object, bool} — complex, for example — falls through every branch
and is returned unchanged with no error; the ValueError of
`normalize_attr_strings` ("String values must be object, ascii or unicode.")
is raised only when that helper is called directly on a non-string dtype,
which `normalize_attr_values` never does. -/
theorem C8_no_kind_validation :
    (∀ (sh : List Nat) (data : List PyVal) (u : Bool),
      normalize_attr_values (.ndarray ⟨.complexD, sh, data⟩) u =
        .ok (.arrV ⟨.complexD, sh, data⟩, false))
    ∧ (∀ a : NpArray,
        a.dtype = .intD ∨ a.dtype = .floatD ∨ a.dtype = .ubyteD ∨
          a.dtype = .boolD ∨ a.dtype = .complexD →
        normalize_attr_strings a =
          .error (.valueError "String values must be object, ascii or unicode.")) := by
  constructor
  · intro sh data u
    rfl
  · intro a h
    rcases a with ⟨dt, sh, data⟩
    rcases h with h | h | h | h | h <;> (cases h; rfl)

/-- C8 witness: the helper ValueError fires on a direct call with an integer
array, while complex data passes through the write path untouched. -/
theorem C8_no_kind_validation_witness :
    normalize_attr_values (.ndarray ⟨.complexD, [1], [.complexNum "1j"]⟩) true =
      .ok (.arrV ⟨.complexD, [1], [.complexNum "1j"]⟩, false)
    ∧ normalize_attr_strings ⟨.intD, [1], [.int 7]⟩ =
      .error (.valueError "String values must be object, ascii or unicode.") :=
  ⟨C8_no_kind_validation.1 [1] [.complexNum "1j"] true,
   C8_no_kind_validation.2 ⟨.intD, [1], [.int 7]⟩ (Or.inl rfl)⟩

/-- On a unicode-kind (U dtype) array of strings, `normalize_attr_strings`
takes the encode branch: every element is ascii-encoded with
`xmlcharrefreplace` into a byte-string array. -/
theorem normalize_attr_strings_strD (sh : List Nat) (s : String) (ss : List String) :
    normalize_attr_strings ⟨.strD, sh, (s :: ss).map PyVal.str⟩ =
      .ok (⟨.bytesD, [(s :: ss).length],
        (s :: ss).map (fun t => PyVal.bytes (encodeXmlCharref t))⟩, false) := by
  unfold normalize_attr_strings
  simp only [NpDtype.isObject, NpDtype.isBytesKind, NpDtype.isStrKind, Bool.false_eq_true,
    if_false, if_true]
  unfold npArrayOfBytesList
  simp [List.map_map, Function.comp]

/-- The write path on a nonempty list of native strings: numpy infers a
unicode array and the elements are `xmlcharrefreplace`-encoded into a
fixed-width byte-string array. -/
theorem normalize_pylist_str (s : String) (rest : List String) :
    normalize_attr_values (.pylist ((s :: rest).map PyVal.str)) false =
      .ok (.arrV ⟨.bytesD, [(s :: rest).length],
        (s :: rest).map (fun t => PyVal.bytes (encodeXmlCharref t))⟩, false) := by
  unfold normalize_attr_values
  simp only [normalize_attr_array, npArrayOfList_all_str s rest,
    NpDtype.isInteger, NpDtype.isFloating, NpDtype.isCharacter, NpDtype.isObject,
    NpDtype.isBoolKind, Bool.or_self, Bool.false_or, Bool.or_false, Bool.false_eq_true,
    if_false, if_true, normalize_attr_strings_strD]

/-- Conversion to str of an all-ascii S-kind array inside
`materialize_attr_values` succeeds and decodes each element. -/
theorem astypeStr_bytes_ascii (sh : List Nat) (bss : List (List Nat))
    (h : ∀ bs ∈ bss, bs.all (fun b => b < 128) = true) :
    astypeStr ⟨.bytesD, sh, bss.map PyVal.bytes⟩ =
      some (bss.map (fun bs => (⟨bs.map Char.ofNat⟩ : String))) := by
  have hcond : ((bss.map PyVal.bytes).all (fun v => match v with
      | PyVal.bytes bs => bs.all (fun b => b < 128)
      | _ => true)) = true := by
    apply List.all_eq_true.mpr
    intro v hv
    obtain ⟨bs, hbs, rfl⟩ := List.mem_map.mp hv
    simpa using h bs hbs
  simp only [astypeStr, NpDtype.isObject, Bool.false_eq_true, if_false, hcond, if_true]
  rw [List.map_map]
  rfl

/-- The read path on an all-ascii byte-string array: decode each element and
unescape XML character references into an object array. -/
theorem materialize_bytes_ascii (sh : List Nat) (bss : List (List Nat))
    (h : ∀ bs ∈ bss, bs.all (fun b => b < 128) = true) :
    materialize_attr_values (.arrV ⟨.bytesD, sh, bss.map PyVal.bytes⟩) =
      .ok (.arrM ⟨.objectD, [bss.length],
        bss.map (fun bs => .str (html_unescape ⟨bs.map Char.ofNat⟩))⟩) := by
  unfold materialize_attr_values
  simp [astypeStr_bytes_ascii sh bss h, NpDtype.isBytesKind, NpDtype.isObject,
    ndarrayHasDecode, List.map_map, Function.comp]

/-- The read path on a byte-string array whose str conversion fails: the
fallback returns the one-element list with the first raw element stripped of
the non-breaking-space byte pair, raising nothing. -/
theorem materialize_bytes_fallback (sh : List Nat) (bs : List Nat) (rest : List PyVal)
    (h : astypeStr ⟨.bytesD, sh, .bytes bs :: rest⟩ = none) :
    materialize_attr_values (.arrV ⟨.bytesD, sh, .bytes bs :: rest⟩) =
      .ok (.listM [.bytes (stripNbsp bs)]) := by
  unfold materialize_attr_values
  simp [h, NpDtype.isBytesKind, NpDtype.isObject, ndarrayHasDecode]

/-- The read path on an all-ascii scalar byte string: decode and unescape,
returning the scalar text. -/
theorem materialize_scalar_bytes_ok (bs : List Nat)
    (h : bs.all (fun b => b < 128) = true) :
    materialize_attr_values (.scalarV (.bytes bs)) =
      .ok (.scalarM (.str (html_unescape ⟨bs.map Char.ofNat⟩))) := by
  have hast : astypeStr ⟨.bytesD, [1], [.bytes bs]⟩ = some [⟨bs.map Char.ofNat⟩] := by
    simp [astypeStr, NpDtype.isObject, h, bytesDecOrStr]
  unfold materialize_attr_values
  simp [hast, npOfScalar, dtypeOfScalar, NpDtype.isBytesKind, NpDtype.isObject,
    ndarrayHasDecode]

/-- The read path on a scalar byte string with a byte outside the 7-bit
range: the fallback strips the non-breaking-space byte pair from the raw
scalar and returns it, raising nothing. -/
theorem materialize_scalar_bytes_fallback (bs : List Nat)
    (h : bs.all (fun b => b < 128) = false) :
    materialize_attr_values (.scalarV (.bytes bs)) =
      .ok (.scalarM (.bytes (stripNbsp bs))) := by
  have hast : astypeStr ⟨.bytesD, [1], [.bytes bs]⟩ = none := by
    simp [astypeStr, NpDtype.isObject, h]
  unfold materialize_attr_values
  simp [hast, npOfScalar, dtypeOfScalar, NpDtype.isBytesKind, NpDtype.isObject,
    ndarrayHasDecode]

/-- C1 counterexample: the all-ascii input ["&amp;"] does not round-trip:
the write path stores the bytes of "&amp;" unchanged, but the read path runs
`html.unescape` over them and returns ["&"], not ["&amp;"]. -/
theorem C1_counterexample :
    (writeReadList ["&amp;"]).map MatResult.values = .ok [.str "&"]
    ∧ PyVal.str "&" ≠ PyVal.str "&amp;" :=
  ⟨by decide, by decide⟩

/-- C1 amended: for a 1-D sequence of native text in which every character
is in the 7-bit ascii range AND no element contains an ampersand (so that
the read-side `html.unescape` cannot rewrite stored character-reference
patterns), materialize after normalize returns the original elements. -/
theorem C1_roundtrip_ascii_no_amp (ss : List String)
    (h : ∀ s ∈ ss, ∀ c ∈ s.data, c.toNat < 128 ∧ c ≠ '&') :
    (writeReadList ss).map MatResult.values = .ok (ss.map PyVal.str) := by
  cases ss with
  | nil => decide
  | cons s rest =>
    have hall : ∀ t ∈ s :: rest, ∀ c ∈ t.data, c.toNat < 128 :=
      fun t ht c hc => (h t ht c hc).1
    have hamp : ∀ t ∈ s :: rest, ∀ c ∈ t.data, c ≠ '&' :=
      fun t ht c hc => (h t ht c hc).2
    have hbss : ∀ bs ∈ (s :: rest).map encodeXmlCharref,
        bs.all (fun b => b < 128) = true := by
      intro bs hbs
      obtain ⟨t, ht, rfl⟩ := List.mem_map.mp hbs
      exact encodeXmlCharref_ascii_all_lt t (hall t ht)
    have helem : ∀ t ∈ s :: rest,
        PyVal.str (html_unescape ⟨(encodeXmlCharref t).map Char.ofNat⟩) = PyVal.str t := by
      intro t ht
      have h1 : (⟨(encodeXmlCharref t).map Char.ofNat⟩ : String) = t := by
        rw [encodeXmlCharref_ascii t (hall t ht), List.map_map]
        have hid : Char.ofNat ∘ Char.toNat = id := funext Char.ofNat_toNat
        rw [hid, List.map_id]
      rw [h1, html_unescape_no_amp t (hamp t ht)]
    unfold writeReadList
    rw [normalize_pylist_str s rest]
    rw [show ((s :: rest).map (fun t => PyVal.bytes (encodeXmlCharref t))) =
        ((s :: rest).map encodeXmlCharref).map PyVal.bytes from by
      rw [List.map_map]
      rfl]
    rw [show (Except.ok (α := NpValue × Bool) (ε := PyErr)
        (.arrV ⟨.bytesD, [(s :: rest).length],
          ((s :: rest).map encodeXmlCharref).map PyVal.bytes⟩, false)).bind
        (fun p => materialize_attr_values p.1) =
        materialize_attr_values (.arrV ⟨.bytesD, [(s :: rest).length],
          ((s :: rest).map encodeXmlCharref).map PyVal.bytes⟩) from rfl]
    rw [materialize_bytes_ascii _ _ hbss]
    simp only [Except.map, MatResult.values, List.map_map]
    congr 1
    exact List.map_congr_left (fun t ht => helem t ht)

/-- C1 witness: the all-ascii, ampersand-free list ["hello", "ab"]
round-trips to itself. -/
theorem C1_roundtrip_ascii_no_amp_witness :
    (writeReadList ["hello", "ab"]).map MatResult.values =
      .ok [PyVal.str "hello", PyVal.str "ab"] :=
  C1_roundtrip_ascii_no_amp ["hello", "ab"] (by decide)

/-- C5 counterexample: for a true object-kind array of mixed types whose
stringified elements contain a non-ascii character, normalization DOES
raise: the mixed branch casts the stringified elements to byte strings with
the strict ascii codec, not with `xmlcharrefreplace`, so [1, "café"] raises
UnicodeEncodeError instead of producing b"caf&#233;". -/
theorem C5_counterexample :
    normalize_attr_values (.ndarray ⟨.objectD, [2], [.int 1, .str "café"]⟩) false =
      .error .unicodeEncodeError := by decide

/-- C5 amended: the literal call normalize([1, "a", 2.5]) does not raise and
produces the byte strings of the stringified elements, but NO diagnostic is
emitted, because `np.array` coerces the mixed list to a unicode (not object)
array which takes the `xmlcharrefreplace` path; only a true object-kind
mixed array takes the diagnostic branch, which stringifies each element and
casts with the strict ascii codec — raising UnicodeEncodeError if any
stringified element has a non-ascii character (never applying
`xmlcharrefreplace`). -/
theorem C5_mixed_coercion :
    (normalize_attr_values (.pylist [.int 1, .str "a", .float "2.5"]) false =
      .ok (.arrV ⟨.bytesD, [3], [.bytes [49], .bytes [97], .bytes [50, 46, 53]]⟩, false))
    ∧ (∀ (sh : List Nat) (xs : List PyVal),
        xs.all isStrV = false → xs.all isBytesV = false →
        (xs.map strOfPyVal).all strAllAscii = true →
        normalize_attr_values (.ndarray ⟨.objectD, sh, xs⟩) false =
          .ok (.arrV ⟨.bytesD, [xs.length],
            xs.map (fun v => PyVal.bytes ((strOfPyVal v).data.map Char.toNat))⟩, true)) := by
  constructor
  · decide
  · intro sh xs h1 h2 h3
    have hstrs : encodeAllAsciiStrict (xs.map strOfPyVal) =
        some ((xs.map strOfPyVal).map (fun s => s.data.map Char.toNat)) := by
      simp [encodeAllAsciiStrict, h3]
    unfold normalize_attr_values normalize_attr_strings
    simp only [normalize_attr_array, NpDtype.isInteger, NpDtype.isFloating,
      NpDtype.isCharacter, NpDtype.isObject, Bool.or_self, Bool.false_or, Bool.or_false,
      Bool.false_eq_true, if_false, if_true, h1, h2, hstrs, List.map_map]
    simp [Function.comp]

/-- C5 witness: the object-kind mixed array [1, "a"] is stringified to
byte strings with the diagnostic flag set and no error. -/
theorem C5_mixed_coercion_witness :
    normalize_attr_values (.ndarray ⟨.objectD, [2], [.int 1, .str "a"]⟩) false =
      .ok (.arrV ⟨.bytesD, [2], [.bytes [49], .bytes [97]]⟩, true) := by
  have h := C5_mixed_coercion.2 [2] [.int 1, .str "a"] (by decide) (by decide) (by decide)
  rw [h]
  decide

/-- C6: whenever the read path's str-conversion/unescape step fails on a
byte-string stored value (an array or a scalar), `materialize_attr_values`
does not raise: the fallback strips the non-breaking-space byte pair from
the first raw element and returns that single recovered value. -/
theorem C6_legacy_fallback :
    (∀ (sh : List Nat) (bs : List Nat) (rest : List PyVal),
      astypeStr ⟨.bytesD, sh, .bytes bs :: rest⟩ = none →
      materialize_attr_values (.arrV ⟨.bytesD, sh, .bytes bs :: rest⟩) =
        .ok (.listM [.bytes (stripNbsp bs)]))
    ∧ (∀ bs : List Nat,
      astypeStr ⟨.bytesD, [1], [.bytes bs]⟩ = none →
      materialize_attr_values (.scalarV (.bytes bs)) =
        .ok (.scalarM (.bytes (stripNbsp bs)))) := by
  constructor
  · exact materialize_bytes_fallback
  · intro bs hast
    apply materialize_scalar_bytes_fallback
    by_contra hb
    have hb2 : bs.all (fun b => b < 128) = true := by
      cases h2 : bs.all (fun b => b < 128) with
      | false => exact absurd h2 hb
      | true => rfl
    rw [show astypeStr ⟨.bytesD, [1], [.bytes bs]⟩ =
        some [⟨bs.map Char.ofNat⟩] from by
      simp [astypeStr, NpDtype.isObject, hb2, bytesDecOrStr]] at hast
    exact Option.noConfusion hast

/-- C6 witness: the scalar byte string b"ca\xc2\xa0f" makes the conversion
step fail and is recovered as b"caf" with the non-breaking-space pair
removed; the 1-element array case returns the corresponding list. -/
theorem C6_legacy_fallback_witness :
    materialize_attr_values (.scalarV (.bytes [99, 97, 194, 160, 102])) =
      .ok (.scalarM (.bytes [99, 97, 102]))
    ∧ materialize_attr_values (.arrV ⟨.bytesD, [1], [.bytes [99, 97, 194, 160, 102]]⟩) =
      .ok (.listM [.bytes [99, 97, 102]]) := by
  constructor
  · rw [C6_legacy_fallback.2 [99, 97, 194, 160, 102] (by decide)]
    decide
  · rw [C6_legacy_fallback.1 [1] [99, 97, 194, 160, 102] [] (by decide)]
    decide

/-- C7: scalar-ness is preserved by both pipelines: a scalar input to the
write path always yields a scalar (never a 1-element array), a scalar input
to the read path always yields a scalar, and concretely "hello" normalizes
to the scalar byte string b"hello" which materializes back to "hello". -/
theorem C7_scalar_preservation :
    (∀ (v : PyVal) (u : Bool), ∃ (w : PyVal) (d : Bool),
      normalize_attr_values (.scalar v) u = .ok (.scalarV w, d))
    ∧ (∀ v : PyVal, ∃ w : PyVal,
      materialize_attr_values (.scalarV v) = .ok (.scalarM w))
    ∧ normalize_attr_values (.scalar (.str "hello")) false =
        .ok (.scalarV (.bytes [104, 101, 108, 108, 111]), false)
    ∧ materialize_attr_values (.scalarV (.bytes [104, 101, 108, 108, 111])) =
        .ok (.scalarM (.str "hello")) := by
  refine ⟨?_, ?_, by decide, by decide⟩
  · intro v u
    cases v <;> cases u <;> exact ⟨_, _, rfl⟩
  · intro v
    cases v with
    | int n => exact ⟨_, rfl⟩
    | float r => exact ⟨_, rfl⟩
    | bool b => exact ⟨_, rfl⟩
    | str s => exact ⟨_, rfl⟩
    | complexNum r => exact ⟨_, rfl⟩
    | bytes bs =>
      cases hb : bs.all (fun b => b < 128) with
      | true => exact ⟨_, materialize_scalar_bytes_ok bs hb⟩
      | false => exact ⟨_, materialize_scalar_bytes_fallback bs hb⟩

/-- C10: under use_object_strings, the result is built by stringifying the
items of the pre-coercion input, not the elements of the shape-coerced 1-D
array: a single-row unicode matrix yields a one-element object array holding
the string form of the whole row (doubled-bracket matrix repr), the same
holds for a single-row sparse input, and for a row of length at least two
the result length 1 differs from the row length. -/
theorem C10_object_strings_precoercion :
    (∀ row : List PyVal,
      normalize_attr_values (.matrix ⟨.strD, [row]⟩) true =
        .ok (.arrV ⟨.objectD, [1],
          [.str ("[[" ++ String.intercalate " " (row.map npReprElem) ++ "]]")]⟩, false))
    ∧ (∀ m : NpMatrix, m.shape0 = 1 → m.dtype = .strD →
        ∃ s : String, normalize_attr_values (.sparse m) true =
          .ok (.arrV ⟨.objectD, [1], [.str s]⟩, false))
    ∧ (∀ row : List PyVal, 2 ≤ row.length →
        ∀ (a : NpArray) (d : Bool),
          normalize_attr_values (.matrix ⟨.strD, [row]⟩) true = .ok (.arrV a, d) →
          a.data.length = 1 ∧ a.data.length ≠ row.length) := by
  have hmat : ∀ row : List PyVal,
      normalize_attr_values (.matrix ⟨.strD, [row]⟩) true =
        .ok (.arrV ⟨.objectD, [1],
          [.str ("[[" ++ String.intercalate " " (row.map npReprElem) ++ "]]")]⟩, false) :=
    fun _ => rfl
  refine ⟨hmat, ?_, ?_⟩
  · intro m h0 hd
    rcases m with ⟨dt, rows⟩
    cases hd
    obtain ⟨r, hr⟩ := List.length_eq_one.mp h0
    subst hr
    exact ⟨_, rfl⟩
  · intro row h2 a d heq
    rw [hmat row] at heq
    have ha : a = ⟨.objectD, [1],
        [.str ("[[" ++ String.intercalate " " (row.map npReprElem) ++ "]]")]⟩ := by
      injection heq with h5
      injection h5 with h6 h7
      exact (NpValue.arrV.inj h6).symm
    subst ha
    exact ⟨rfl, by simpa using (by omega : (1 : Nat) ≠ row.length)⟩

/-- C10 witness: a single-row three-column unicode matrix yields a
one-element object array under use_object_strings (length 1, not 3), and a
single-row sparse matrix also yields a one-element object array. -/
theorem C10_object_strings_precoercion_witness :
    ((⟨.objectD, [1], [.str ("[[" ++ String.intercalate " "
        ([PyVal.str "a", PyVal.str "b", PyVal.str "c"].map npReprElem) ++ "]]")]⟩ :
      NpArray).data.length = 1
      ∧ (⟨.objectD, [1], [.str ("[[" ++ String.intercalate " "
          ([PyVal.str "a", PyVal.str "b", PyVal.str "c"].map npReprElem) ++ "]]")]⟩ :
        NpArray).data.length ≠ [PyVal.str "a", PyVal.str "b", PyVal.str "c"].length)
    ∧ (∃ s : String,
        normalize_attr_values (.sparse ⟨.strD, [[.str "a", .str "b"]]⟩) true =
          .ok (.arrV ⟨.objectD, [1], [.str s]⟩, false)) :=
  ⟨C10_object_strings_precoercion.2.2 [PyVal.str "a", PyVal.str "b", PyVal.str "c"]
      (by decide) _ false (C10_object_strings_precoercion.1 _),
   C10_object_strings_precoercion.2.1 ⟨.strD, [[.str "a", .str "b"]]⟩ rfl rfl⟩

/-- C9: a stored array of native unicode-text kind is materialized with its
text unchanged — the data is recast to an object array with no unescaping
step, so a stored native-text "&#233;" stays "&#233;" and no
double-unescaping can occur. -/
theorem C9_native_text_passthrough :
    (∀ (sh : List Nat) (ss : List String),
      materialize_attr_values (.arrV ⟨.strD, sh, ss.map .str⟩) =
        .ok (.arrM ⟨.objectD, sh, ss.map .str⟩))
    ∧ materialize_attr_values (.arrV ⟨.strD, [1], [.str "&#233;"]⟩) =
      .ok (.arrM ⟨.objectD, [1], [.str "&#233;"]⟩) :=
  ⟨fun _ _ => rfl, rfl⟩

end Loompy
